import Mathlib

/-!
Shallow embedding of `src/lib/geolocation.js` (the `GeolocationClass` of the
fx-sdk-geolocation add-on module).

Modelling conventions:
* JS objects delivered by the provider (position samples) are compared by
  reference in the source (`position != namespace(this).position`); we model a
  reference as a `ref : Nat` tag on the sample, so two structurally equal
  samples with different `ref` tags model two distinct JS objects.
* JS numbers that the claims never do arithmetic on are modelled as `Int`;
  nullable fields as `Option`.
* The external `GeolocationSvc` provider is modelled as explicit state: the
  list of currently registered continuous-watch ids, a counter producing the
  next watch id, and two flags saying whether the corresponding provider entry
  point throws synchronously when invoked.
* Each operation of the module is a pure function from the combined system
  state to the new state together with the list of events `emit`-ted, the list
  of provider calls issued, and the synchronous settlement (if any) of the
  `defer()` promise the operation returns.
* A JS strict comparison `e.code === e.PERMISSION_DENIED` where the right side
  may be `undefined` (the property is absent from the object) is modelled by
  `strictEqNum` against an `Option Nat`: comparison with an absent property is
  `false`.
-/

namespace Geolocation

/-- Coordinates of a position sample (`nsIDOMGeoPositionCoords`).  Numeric
values are irrelevant to the claims, so they are `Int`; fields the provider
may omit are `Option Int`. -/
structure Coordinates where
  latitude : Int
  longitude : Int
  accuracy : Int
  altitude : Option Int
  altitudeAccuracy : Option Int
  heading : Option Int
  speed : Option Int
deriving DecidableEq, Repr

/-- An address as delivered by the legacy (GEO_API_V1) provider revision: an
opaque mapping of component names to strings. -/
abbrev Address : Type := List (String × String)

/-- A position sample (`nsIDOMGeoPosition`).  `ref` models the JS object
reference: the source dedups samples with `!=`, i.e. by reference identity,
so two samples are "the same object" exactly when their `ref` tags agree. -/
structure PositionSample where
  ref : Nat
  timestamp : Int
  coords : Coordinates
  address : Option Address
deriving DecidableEq

/-- The options record held in `namespace(this).options`
(`enableHighAccuracy`, `timeout`). -/
structure GeoOptions where
  enableHighAccuracy : Bool
  timeout : Nat
deriving DecidableEq, Repr

/-- Defaults merged in `initialize`: `enableHighAccuracy: false`,
`timeout: 15 * 1000`. -/
def defaultOptions : GeoOptions :=
  { enableHighAccuracy := false, timeout := 15 * 1000 }

/-- An error object as seen by `_onerror`.  A genuine provider error
(`nsIDOMGeoPositionError`) carries the constants `PERMISSION_DENIED = 1`,
`POSITION_UNAVAILABLE = 2`, `TIMEOUT = 3` as own properties; the locally
built `ALLOWED_ERROR` object literal does not, which we model by `Option`
(with `none` for an absent property, i.e. JS `undefined`). -/
structure ErrorRecord where
  code : Nat
  message : String
  PERMISSION_DENIED : Option Nat
  POSITION_UNAVAILABLE : Option Nat
  TIMEOUT : Option Nat
deriving DecidableEq, Repr

/-- The module-level constant
`ALLOWED_ERROR = { code : 1, message : "You must get permission ..." }`.
It is a plain object literal: it has no `PERMISSION_DENIED`,
`POSITION_UNAVAILABLE` or `TIMEOUT` properties. -/
def ALLOWED_ERROR : ErrorRecord :=
  { code := 1
    message := "You must get permission to use geolocation and set allowed to true"
    PERMISSION_DENIED := none
    POSITION_UNAVAILABLE := none
    TIMEOUT := none }

/-- A genuine provider-reported error: carries the three
`nsIDOMGeoPositionError` code constants as own properties. -/
def providerError (code : Nat) (message : String) : ErrorRecord :=
  { code := code
    message := message
    PERMISSION_DENIED := some 1
    POSITION_UNAVAILABLE := some 2
    TIMEOUT := some 3 }

/-- JS strict equality `n === c` where `c` is a property that may be absent
(`undefined`): a number is never strictly equal to `undefined`. -/
def strictEqNum (n : Nat) (c : Option Nat) : Bool :=
  match c with
  | some v => n == v
  | none => false

/-- The per-instance state kept in getters and `namespace(this)`:
the pref key built in `initialize`, the `GEO_API_V1` version flag, the
options record, `watchID`, the cached `position`, the cached `address`
(GEO_API_V1 only) and the `allowed` flag. -/
structure GeoState where
  ALLOW_GEOLOCATION_PREF : String
  GEO_API_V1 : Bool
  options : GeoOptions
  watchID : Option Nat
  position : Option PositionSample
  address : Option Address
  allowed : Bool
deriving DecidableEq

/-- State of the external `GeolocationSvc` provider: which continuous-watch
ids are currently registered, the id it hands out next, and whether its two
entry points throw synchronously when invoked (black-box behaviours the
module must cope with). -/
structure ProviderState where
  registered : List Nat
  nextID : Nat
  oneShotThrows : Bool
  watchRegisterThrows : Bool
deriving DecidableEq, Repr

/-- The persisted preference store (`PrefSvc`): a key/value list, most recent
write first. -/
abbrev PrefStore : Type := List (String × Bool)

/-- Write a preference (`PrefSvc.set`). -/
def prefsSet (p : PrefStore) (k : String) (v : Bool) : PrefStore :=
  (k, v) :: p.filter (fun kv => !(kv.1 == k))

/-- Read a preference (`PrefSvc.get`, without the default argument). -/
def prefsGet (p : PrefStore) (k : String) : Option Bool :=
  (p.find? (fun kv => kv.1 == k)).map (fun kv => kv.2)

/-- The combined system state: the module instance, the external provider and
the external preference store. -/
structure Sys where
  geo : GeoState
  svc : ProviderState
  prefs : PrefStore
deriving DecidableEq

/-- An event emitted with `emit(this, ...)`: `"coords"` carries the new
coordinates, `"address"` the (possibly null) address, `"error"` an error kind
string plus, for `"timeout"` only, the configured timeout value. -/
inductive Event where
  | coords (c : Coordinates)
  | addressEv (a : Option Address)
  | errorEv (kind : String) (timeoutArg : Option Nat)
deriving DecidableEq

/-- A call issued to the external provider. -/
inductive ProviderCall where
  | oneShot (opts : GeoOptions)
  | registerWatch (opts : GeoOptions)
  | clearWatch (id : Nat)
deriving DecidableEq, Repr

/-- Synchronous settlement of the `defer()` promise an operation returns:
still pending, resolved (with `this.position`, which may be null, or with the
sample a callback received), rejected with an error record, or rejected with
a caught JS exception. -/
inductive Deferred where
  | pending
  | resolved (p : Option PositionSample)
  | rejectedErr (e : ErrorRecord)
  | rejectedExn (msg : String)
deriving DecidableEq

/-- Outcome of calling a gated entry point: it either returns (with the new
system state, the events emitted on the way and the settlement of the
returned promise) or throws a synchronous JS exception out of the call. -/
inductive CallOutcome where
  | returned (sys : Sys) (events : List Event) (deferred : Deferred)
  | threw (sys : Sys) (msg : String)
deriving DecidableEq

/-- System state an entry point leaves behind, whether it returned or threw. -/
def CallOutcome.outSys : CallOutcome → Sys
  | CallOutcome.returned s _ _ => s
  | CallOutcome.threw s _ => s

/-- Events emitted during the synchronous part of an entry point. -/
def CallOutcome.outEvents : CallOutcome → List Event
  | CallOutcome.returned _ evs _ => evs
  | CallOutcome.threw _ _ => []

/-- Settlement of the returned promise; `none` when the call threw (no
promise was returned). -/
def CallOutcome.outDeferred : CallOutcome → Option Deferred
  | CallOutcome.returned _ _ d => some d
  | CallOutcome.threw _ _ => none

/-- Whether the entry point threw a synchronous exception at its caller. -/
def CallOutcome.throws : CallOutcome → Bool
  | CallOutcome.returned _ _ _ => false
  | CallOutcome.threw _ _ => true

/-- JS `position != namespace(this).position` in `_setposition`: a freshly
delivered sample object compared against the cached one.  `!=` between an
object and `null` is true; between two objects it is reference inequality. -/
def sameRef (p : PositionSample) (cached : Option PositionSample) : Bool :=
  match cached with
  | some q => p.ref == q.ref
  | none => false

/-- Embeds `_setposition(position)`: if the delivered sample is not the cached
object, cache it and `emit "coords"` with the new `this.coords`; under
GEO_API_V1 additionally cache `position.address` and `emit "address"` with
the `address` getter value (the new position is non-null here, so the getter
yields `position.address` or null). -/
def setposition (s : GeoState) (p : PositionSample) : GeoState × List Event :=
  if sameRef p s.position then
    (s, [])
  else
    let s1 : GeoState := { s with position := some p }
    if s1.GEO_API_V1 then
      ({ s1 with address := p.address },
       [Event.coords p.coords, Event.addressEv p.address])
    else
      (s1, [Event.coords p.coords])

/-- Embeds `_onerror(e)`: classify `e.code` against the error object's own
code constants (strict equality, so comparison with an absent constant
fails) and emit the matching `"error"` event; the `"timeout"` kind carries
`this.timeout`.  No branch matches: nothing is emitted. -/
def onerror (s : GeoState) (e : ErrorRecord) : List Event :=
  if strictEqNum e.code e.PERMISSION_DENIED then
    [Event.errorEv "permission-denied" none]
  else if strictEqNum e.code e.POSITION_UNAVAILABLE then
    [Event.errorEv "position-unavailable" none]
  else if strictEqNum e.code e.TIMEOUT then
    [Event.errorEv "timeout" (some s.options.timeout)]
  else
    []

/-- Embeds the `success` callback closure passed to both
`GeolocationSvc.getCurrentPosition` and `GeolocationSvc.watchPosition`:
`this._setposition(position); deferred.resolve(position);`.  The provider may
invoke it on any later turn, including after `stopWatching()`. -/
def success_callback (sys : Sys) (p : PositionSample) :
    Sys × List Event × Deferred :=
  let r := setposition sys.geo p
  ({ sys with geo := r.1 }, r.2, Deferred.resolved (some p))

/-- Embeds the `fail` callback closure passed to both provider entry points:
`this._onerror(positionError); deferred.reject(positionError);`. -/
def fail_callback (sys : Sys) (e : ErrorRecord) :
    Sys × List Event × Deferred :=
  (sys, onerror sys.geo e, Deferred.rejectedErr e)

/-- Embeds `isWatching()`: `namespace(this).watchID !== null`. -/
def isWatching (s : GeoState) : Bool :=
  s.watchID != none

/-- Embeds `stopWatching()`: if watching, call
`GeolocationSvc.clearWatch(watchID)` and null the stored id; otherwise a
no-op.  (`isWatching` is true exactly when `watchID` matches `some w`.) -/
def stopWatching (sys : Sys) : Sys × List ProviderCall :=
  match sys.geo.watchID with
  | some w =>
      ({ sys with
          geo := { sys.geo with watchID := none }
          svc := { sys.svc with registered := sys.svc.registered.erase w } },
       [ProviderCall.clearWatch w])
  | none => (sys, [])

/-- Embeds the `allowed` setter: store the flag in the namespace, persist it
with `PrefSvc.set(this.ALLOW_GEOLOCATION_PREF, allow)` and, when the new
value is false, `this.stopWatching()`. -/
def set_allowed (sys : Sys) (allow : Bool) : Sys × List ProviderCall :=
  let sys1 : Sys :=
    { sys with
        geo := { sys.geo with allowed := allow }
        prefs := prefsSet sys.prefs sys.geo.ALLOW_GEOLOCATION_PREF allow }
  if !allow then stopWatching sys1 else (sys1, [])

/-- Embeds `getCurrentPosition()`: when allowed, invoke the provider's
one-shot entry point with `privateAPI.options` (NOT wrapped in try/catch, so
a synchronous provider throw escapes the caller) and return the pending
promise; when not allowed, run `_onerror(ALLOWED_ERROR)` and reject with
`ALLOWED_ERROR` without any provider call. -/
def getCurrentPosition (sys : Sys) : CallOutcome × List ProviderCall :=
  if sys.geo.allowed then
    if sys.svc.oneShotThrows then
      (CallOutcome.threw sys "GeolocationSvc.getCurrentPosition threw",
       [ProviderCall.oneShot sys.geo.options])
    else
      (CallOutcome.returned sys [] Deferred.pending,
       [ProviderCall.oneShot sys.geo.options])
  else
    (CallOutcome.returned sys (onerror sys.geo ALLOWED_ERROR)
       (Deferred.rejectedErr ALLOWED_ERROR),
     [])

/-- Embeds `watchPosition()`: when allowed and not watching, invoke the
provider's watch registration with current options inside try/catch — on
normal return store the fresh watch id, on a synchronous throw reject the
promise and leave the stored id untouched; when allowed and already watching,
resolve immediately with `this.position`; when not allowed, `stopWatching()`,
`_onerror(ALLOWED_ERROR)` and reject. -/
def watchPosition (sys : Sys) : CallOutcome × List ProviderCall :=
  if sys.geo.allowed then
    if !(isWatching sys.geo) then
      if sys.svc.watchRegisterThrows then
        (CallOutcome.returned sys []
           (Deferred.rejectedExn "GeolocationSvc.watchPosition threw"),
         [ProviderCall.registerWatch sys.geo.options])
      else
        let id := sys.svc.nextID
        (CallOutcome.returned
           { sys with
               geo := { sys.geo with watchID := some id }
               svc := { sys.svc with
                          registered := id :: sys.svc.registered
                          nextID := id + 1 } }
           [] Deferred.pending,
         [ProviderCall.registerWatch sys.geo.options])
    else
      (CallOutcome.returned sys [] (Deferred.resolved sys.geo.position), [])
  else
    let r := stopWatching sys
    (CallOutcome.returned r.1 (onerror r.1.geo ALLOWED_ERROR)
       (Deferred.rejectedErr ALLOWED_ERROR),
     r.2)

/-- Embeds `unload(reason)`: stop watching; on `"disable"` additionally set
`allowed = false` (which persists the flag and stops again, idempotently). -/
def geolocation_unload (sys : Sys) (reason : String) :
    Sys × List ProviderCall :=
  let r := stopWatching sys
  if reason == "disable" then
    let r2 := set_allowed r.1 false
    (r2.1, r.2 ++ r2.2)
  else
    r

/-- A JS value as returned by the simple property getters: a number, a
string, or `null`. -/
inductive JSVal where
  | num (n : Int)
  | str (v : String)
  | nullv
deriving DecidableEq, Repr

/-- Embeds the `coords` getter: `(this.position) ? this.position.coords :
null`. -/
def coords_get (s : GeoState) : Option Coordinates :=
  match s.position with
  | some p => some p.coords
  | none => none

/-- Embeds the `latitude` getter: `(this.coords) ? this.coords.latitude :
""`. -/
def latitude_get (s : GeoState) : JSVal :=
  match coords_get s with
  | some c => JSVal.num c.latitude
  | none => JSVal.str ""

/-- Embeds the `longitude` getter. -/
def longitude_get (s : GeoState) : JSVal :=
  match coords_get s with
  | some c => JSVal.num c.longitude
  | none => JSVal.str ""

/-- Embeds the `accuracy` getter: `(this.coords) ? this.coords.accuracy :
null`. -/
def accuracy_get (s : GeoState) : JSVal :=
  match coords_get s with
  | some c => JSVal.num c.accuracy
  | none => JSVal.nullv

/-- JS view of an optional numeric field: the value, or `null`. -/
def optNum : Option Int → JSVal
  | some n => JSVal.num n
  | none => JSVal.nullv

/-- Embeds the `altitude` getter. -/
def altitude_get (s : GeoState) : JSVal :=
  match coords_get s with
  | some c => optNum c.altitude
  | none => JSVal.nullv

/-- Embeds the `altitudeAccuracy` getter. -/
def altitudeAccuracy_get (s : GeoState) : JSVal :=
  match coords_get s with
  | some c => optNum c.altitudeAccuracy
  | none => JSVal.nullv

/-- Embeds the `heading` getter. -/
def heading_get (s : GeoState) : JSVal :=
  match coords_get s with
  | some c => optNum c.heading
  | none => JSVal.nullv

/-- Embeds the `speed` getter. -/
def speed_get (s : GeoState) : JSVal :=
  match coords_get s with
  | some c => optNum c.speed
  | none => JSVal.nullv

/-- Embeds the `address` getter exactly as written:
`(this.position.address) ? this.position.address : null`.  Unlike every other
getter it dereferences `this.position` before any null check, so with no
cached sample the read throws a TypeError, modelled as `Except.error`. -/
def address_get (s : GeoState) : Except String (Option Address) :=
  match s.position with
  | none => Except.error "TypeError: this.position is null"
  | some p => Except.ok p.address

/-- The watch-handle invariant of the claims: the stored `watchID` is
`some w` exactly when the provider currently has exactly the one watch `w`
registered, and `none` exactly when it has none. -/
def watchInv (sys : Sys) : Bool :=
  match sys.geo.watchID with
  | some w => sys.svc.registered == [w]
  | none => sys.svc.registered == []

/-- Concrete coordinates used as test data (lat 10, lon 20). -/
def coordsA : Coordinates :=
  { latitude := 10, longitude := 20, accuracy := 30
    altitude := none, altitudeAccuracy := none, heading := none, speed := none }

/-- A concrete sample object. -/
def sampA : PositionSample :=
  { ref := 5, timestamp := 100, coords := coordsA, address := none }

/-- A distinct sample object with the same coordinate values as `sampA`. -/
def sampB : PositionSample :=
  { ref := 6, timestamp := 200, coords := coordsA, address := none }

/-- Baseline instance state: modern provider revision, defaults, nothing
cached, not allowed. -/
def geoBase : GeoState :=
  { ALLOW_GEOLOCATION_PREF := "extensions.jid-geo.allowGeolocation"
    GEO_API_V1 := false
    options := defaultOptions
    watchID := none
    position := none
    address := none
    allowed := false }

/-- Baseline provider: no registered watches, well behaved. -/
def svcBase : ProviderState :=
  { registered := [], nextID := 1, oneShotThrows := false
    watchRegisterThrows := false }

/-- System with permission denied. -/
def sysNotAllowed : Sys := { geo := geoBase, svc := svcBase, prefs := [] }

/-- System with permission granted and no active watch. -/
def sysAllowedIdle : Sys :=
  { geo := { geoBase with allowed := true }, svc := svcBase, prefs := [] }

/-- System with permission granted and a live watch with handle 0. -/
def sysWatching : Sys :=
  { geo := { geoBase with allowed := true, watchID := some 0 }
    svc := { svcBase with registered := [0] }
    prefs := [] }

/-- System whose provider throws synchronously from its one-shot entry
point. -/
def sysThrowingOneShot : Sys :=
  { geo := { geoBase with allowed := true }
    svc := { svcBase with oneShotThrows := true }
    prefs := [] }

/-- System whose provider throws synchronously from its watch
registration. -/
def sysRegThrows : Sys :=
  { geo := { geoBase with allowed := true }
    svc := { svcBase with watchRegisterThrows := true }
    prefs := [] }

/-- System with permission granted and sample `sampA` cached. -/
def sysCachedA : Sys :=
  { geo := { geoBase with allowed := true, position := some sampA }
    svc := svcBase
    prefs := [] }

/-- A sample carrying a resolved address, as the legacy provider revision
delivers. -/
def sampAddr : PositionSample :=
  { ref := 7, timestamp := 300, coords := coordsA
    address := some [("city", "Lisbon")] }

/-- System under the legacy (GEO_API_V1) provider revision, with permission
granted and a live watch with handle 0. -/
def sysWatchingV1 : Sys :=
  { geo := { geoBase with allowed := true, watchID := some 0, GEO_API_V1 := true }
    svc := { svcBase with registered := [0] }
    prefs := [] }

/-- Helper: a delivered sample that is not the cached object replaces the
cache, and the emitted events start with the `"coords"` event for it. -/
theorem setposition_fresh (s : GeoState) (p : PositionSample)
    (h : sameRef p s.position = false) :
    (setposition s p).1.position = some p ∧
    (setposition s p).2.head? = some (Event.coords p.coords) ∧
    Event.coords p.coords ∈ (setposition s p).2 := by
  unfold setposition
  rw [h]
  by_cases hv : s.GEO_API_V1 <;> simp [hv]

/-- Helper: a delivered sample that is reference-identical to the cached one
leaves the state untouched and emits nothing. -/
theorem setposition_cached (s : GeoState) (p : PositionSample)
    (h : sameRef p s.position = true) :
    setposition s p = (s, []) := by
  unfold setposition
  rw [h]
  simp

/-- Helper: under the legacy revision a fresh sample emits exactly the
`"coords"` event followed by the `"address"` event carrying the sample's
address. -/
theorem setposition_fresh_v1 (s : GeoState) (p : PositionSample)
    (h : sameRef p s.position = false) (hv : s.GEO_API_V1 = true) :
    (setposition s p).2 = [Event.coords p.coords, Event.addressEv p.address] := by
  unfold setposition
  rw [h]
  simp [hv]

/-- Helper: `_setposition` never touches the stored watch handle. -/
theorem setposition_watchID (s : GeoState) (p : PositionSample) :
    (setposition s p).1.watchID = s.watchID := by
  unfold setposition
  by_cases h : sameRef p s.position <;> by_cases hv : s.GEO_API_V1 <;>
    simp [h, hv]

/-- Helper: after `stopWatching()` the instance is not watching, and the
preference store, `allowed` flag and cached position are untouched. -/
theorem stopWatching_spec (sys : Sys) :
    isWatching (stopWatching sys).1.geo = false ∧
    (stopWatching sys).1.prefs = sys.prefs ∧
    (stopWatching sys).1.geo.allowed = sys.geo.allowed ∧
    (stopWatching sys).1.geo.position = sys.geo.position := by
  unfold stopWatching
  cases hw : sys.geo.watchID <;> simp [isWatching, hw]

/-- Helper: the locally built `ALLOWED_ERROR` matches no branch of the
`_onerror` classifier, because the object literal lacks the three code
constants the strict comparisons read. -/
theorem onerror_ALLOWED_ERROR (s : GeoState) :
    onerror s ALLOWED_ERROR = [] := by
  simp [onerror, ALLOWED_ERROR, strictEqNum]

/-- C2: the claim says the locally synthesized not-allowed error kind is
emitted as an `"error"` notification to continuous listeners, like the three
provider-reported kinds.  Evaluating the code at the failing input shows
otherwise: a permission-gated `getCurrentPosition()` or `watchPosition()`
call rejects its promise with `ALLOWED_ERROR` but emits no event at all,
because `_onerror` compares `e.code` against constants `ALLOWED_ERROR` does
not carry. -/
theorem C2_blocked_call_emits_no_error_event :
    onerror sysNotAllowed.geo ALLOWED_ERROR = [] ∧
    (getCurrentPosition sysNotAllowed).1 =
      CallOutcome.returned sysNotAllowed [] (Deferred.rejectedErr ALLOWED_ERROR) ∧
    (watchPosition sysNotAllowed).1 =
      CallOutcome.returned sysNotAllowed [] (Deferred.rejectedErr ALLOWED_ERROR) :=
  ⟨rfl, rfl, rfl⟩

/-- C3: with `allowed` false, `getCurrentPosition()` makes no provider call
and returns a promise rejected with the not-allowed error; with `allowed`
true it invokes the provider's one-shot entry point exactly once, with the
current options. -/
theorem C3_permission_gate_one_shot (sys : Sys) :
    (sys.geo.allowed = false →
      getCurrentPosition sys =
        (CallOutcome.returned sys [] (Deferred.rejectedErr ALLOWED_ERROR), [])) ∧
    (sys.geo.allowed = true →
      (getCurrentPosition sys).2 = [ProviderCall.oneShot sys.geo.options]) := by
  constructor
  · intro h
    simp [getCurrentPosition, h, onerror_ALLOWED_ERROR]
  · intro h
    by_cases ht : sys.svc.oneShotThrows <;> simp [getCurrentPosition, h, ht]

/-- Witness for C3 at concrete states. -/
theorem C3_permission_gate_one_shot_witness :
    getCurrentPosition sysNotAllowed =
      (CallOutcome.returned sysNotAllowed [] (Deferred.rejectedErr ALLOWED_ERROR), []) ∧
    (getCurrentPosition sysAllowedIdle).2 =
      [ProviderCall.oneShot sysAllowedIdle.geo.options] :=
  ⟨(C3_permission_gate_one_shot sysNotAllowed).1 rfl,
   (C3_permission_gate_one_shot sysAllowedIdle).2 rfl⟩

/-- C5: `watchPosition()` while allowed and already watching changes nothing
(in particular the stored handle), issues no provider call, and resolves the
returned promise immediately with the cached sample. -/
theorem C5_rewatch_is_noop (sys : Sys) (w : Nat)
    (hallow : sys.geo.allowed = true) (hw : sys.geo.watchID = some w) :
    watchPosition sys =
      (CallOutcome.returned sys [] (Deferred.resolved sys.geo.position), []) := by
  simp [watchPosition, hallow, isWatching, hw]

/-- Witness for C5 at the concrete watching state. -/
theorem C5_rewatch_is_noop_witness :
    watchPosition sysWatching =
      (CallOutcome.returned sysWatching []
        (Deferred.resolved sysWatching.geo.position), []) :=
  C5_rewatch_is_noop sysWatching 0 rfl rfl

/-- C9: with no cached sample, `latitude`/`longitude` read as the empty
string and `accuracy`/`altitude`/`altitudeAccuracy`/`heading`/`speed` as
null, but — against the claim that no getter read throws and that `address`
reads as null — the `address` getter dereferences the null `this.position`
and throws a TypeError. -/
theorem C9_no_sample_getters :
    latitude_get geoBase = JSVal.str "" ∧
    longitude_get geoBase = JSVal.str "" ∧
    accuracy_get geoBase = JSVal.nullv ∧
    altitude_get geoBase = JSVal.nullv ∧
    altitudeAccuracy_get geoBase = JSVal.nullv ∧
    heading_get geoBase = JSVal.nullv ∧
    speed_get geoBase = JSVal.nullv ∧
    address_get geoBase = Except.error "TypeError: this.position is null" :=
  ⟨rfl, rfl, rfl, rfl, rfl, rfl, rfl, rfl⟩

/-- C10: a provider failure whose code matches none of the three
`nsIDOMGeoPositionError` constants produces no `"error"` event at all, while
the call's promise still rejects with the raw error object. -/
theorem C10_unclassified_error_silently_dropped (sys : Sys) (code : Nat)
    (m : String) (h1 : code ≠ 1) (h2 : code ≠ 2) (h3 : code ≠ 3) :
    fail_callback sys (providerError code m) =
      (sys, [], Deferred.rejectedErr (providerError code m)) := by
  simp [fail_callback, onerror, providerError, strictEqNum, h1, h2, h3]

/-- Witness for C10 with the unclassifiable code 4. -/
theorem C10_unclassified_error_silently_dropped_witness :
    fail_callback sysWatching (providerError 4 "unknown") =
      (sysWatching, [], Deferred.rejectedErr (providerError 4 "unknown")) :=
  C10_unclassified_error_silently_dropped sysWatching 4 "unknown"
    (by decide) (by decide) (by decide)

/-- C1 counterexample: after `stopWatching()` on a live watch the handle is
cleared, yet late provider callbacks are NOT ignored.  On modern-revision
`sysWatching`: a late success callback falsifies "no coords notification and
no cache update", and a late timeout failure callback fires an `"error"`
notification; on legacy-revision `sysWatchingV1`: a late success callback
additionally fires an `"address"` notification.  The callback closures
contain no check of the stored handle. -/
theorem C1_late_callback_counterexample :
    (isWatching (stopWatching sysWatching).1.geo = false ∧
      isWatching (stopWatching sysWatchingV1).1.geo = false) ∧
    ¬ ((success_callback (stopWatching sysWatching).1 sampA).2.1 = [] ∧
       (success_callback (stopWatching sysWatching).1 sampA).1.geo.position =
         (stopWatching sysWatching).1.geo.position) ∧
    Event.errorEv "timeout" (some (15 * 1000)) ∈
      (fail_callback (stopWatching sysWatching).1 (providerError 3 "timed out")).2.1 ∧
    Event.addressEv sampAddr.address ∈
      (success_callback (stopWatching sysWatchingV1).1 sampAddr).2.1 := by
  decide

/-- C1 amended: a provider callback arriving after the watch handle has been
cleared (by `stopWatching()` or by revoking `allowed`) is processed exactly
like a live one — a success callback whose sample is not reference-identical
to the cached one replaces the cache and fires a `"coords"` notification
(and, under the legacy revision, an `"address"` notification), and a failure
callback carrying any of the three provider-classified codes fires the
corresponding `"error"` notification; the code relies on the provider's
`clearWatch` to suppress further callbacks and performs no stored-handle
check of its own. -/
theorem C1_late_callback_processed (sys : Sys) (p : PositionSample)
    (m : String) (_hstopped : isWatching sys.geo = false)
    (hfresh : sameRef p sys.geo.position = false) :
    ((success_callback sys p).1.geo.position = some p ∧
      Event.coords p.coords ∈ (success_callback sys p).2.1) ∧
    (sys.geo.GEO_API_V1 = true →
      Event.addressEv p.address ∈ (success_callback sys p).2.1) ∧
    ((fail_callback sys (providerError 1 m)).2.1 =
        [Event.errorEv "permission-denied" none] ∧
      (fail_callback sys (providerError 2 m)).2.1 =
        [Event.errorEv "position-unavailable" none] ∧
      (fail_callback sys (providerError 3 m)).2.1 =
        [Event.errorEv "timeout" (some sys.geo.options.timeout)]) := by
  refine ⟨?_, ?_, rfl, rfl, rfl⟩
  · have h := setposition_fresh sys.geo p hfresh
    unfold success_callback
    exact ⟨h.1, h.2.2⟩
  · intro hv
    have h2 := setposition_fresh_v1 sys.geo p hfresh hv
    have hev : (success_callback sys p).2.1 = (setposition sys.geo p).2 := rfl
    rw [hev, h2]
    simp

/-- Witness for the amended C1, on the stopped legacy-revision system: the
late sample lands in the cache with `"coords"` and `"address"` events, and a
late timeout failure emits the classified `"error"` event. -/
theorem C1_late_callback_processed_witness :
    ((success_callback (stopWatching sysWatchingV1).1 sampAddr).1.geo.position =
        some sampAddr ∧
      Event.coords sampAddr.coords ∈
        (success_callback (stopWatching sysWatchingV1).1 sampAddr).2.1) ∧
    Event.addressEv sampAddr.address ∈
      (success_callback (stopWatching sysWatchingV1).1 sampAddr).2.1 ∧
    (fail_callback (stopWatching sysWatchingV1).1 (providerError 3 "late")).2.1 =
      [Event.errorEv "timeout"
        (some (stopWatching sysWatchingV1).1.geo.options.timeout)] := by
  obtain ⟨h1, h2, h3⟩ :=
    C1_late_callback_processed (stopWatching sysWatchingV1).1 sampAddr "late"
      (by decide) (by decide)
  exact ⟨h1, h2 (by decide), h3.2.2⟩

/-- C4: change detection is by object identity.  A reference-identical
delivery changes nothing and emits nothing, but the call's promise still
resolves with the sample; a fresh object replaces the cache and the event
list starts with its `"coords"` event; two fresh objects with equal
coordinate values fire `"coords"` twice. -/
theorem C4_identity_based_change_detection (sys : Sys) (p q : PositionSample) :
    (sameRef p sys.geo.position = true →
      success_callback sys p = (sys, [], Deferred.resolved (some p))) ∧
    (sameRef p sys.geo.position = false →
      (success_callback sys p).1.geo.position = some p ∧
      (success_callback sys p).2.1.head? = some (Event.coords p.coords)) ∧
    (sameRef p sys.geo.position = false → p.ref ≠ q.ref → p.coords = q.coords →
      Event.coords p.coords ∈ (success_callback sys p).2.1 ∧
      Event.coords q.coords ∈
        (success_callback (success_callback sys p).1 q).2.1 ∧
      (success_callback (success_callback sys p).1 q).1.geo.position = some q) := by
  refine ⟨?_, ?_, ?_⟩
  · intro h
    simp [success_callback, setposition_cached sys.geo p h]
  · intro h
    have hf := setposition_fresh sys.geo p h
    exact ⟨hf.1, hf.2.1⟩
  · intro h hne _
    have hf := setposition_fresh sys.geo p h
    have hpos : (success_callback sys p).1.geo.position = some p := hf.1
    have hq : sameRef q (success_callback sys p).1.geo.position = false := by
      rw [hpos]
      simp only [sameRef, beq_eq_false_iff_ne, ne_eq]
      exact fun hqp => hne hqp.symm
    have hf2 := setposition_fresh (success_callback sys p).1.geo q hq
    exact ⟨hf.2.2, hf2.2.2, hf2.1⟩

/-- Witness for C4 at concrete samples: `sampA` redelivered over itself is
silent, `sampA` over an empty cache fires, and the value-equal but distinct
`sampB` fires again. -/
theorem C4_identity_based_change_detection_witness :
    success_callback sysCachedA sampA =
      (sysCachedA, [], Deferred.resolved (some sampA)) ∧
    (success_callback sysAllowedIdle sampA).1.geo.position = some sampA ∧
    Event.coords sampA.coords ∈ (success_callback sysAllowedIdle sampA).2.1 ∧
    Event.coords sampB.coords ∈
      (success_callback (success_callback sysAllowedIdle sampA).1 sampB).2.1 := by
  obtain ⟨h1, _, _⟩ := C4_identity_based_change_detection sysCachedA sampA sampB
  obtain ⟨_, g2, g3⟩ := C4_identity_based_change_detection sysAllowedIdle sampA sampB
  exact ⟨h1 (by decide), (g2 (by decide)).1,
         (g3 (by decide) (by decide) (by decide)).1,
         (g3 (by decide) (by decide) (by decide)).2.1⟩

/-- Helper: a fresh write is found under its key in the preference store. -/
theorem prefsGet_prefsSet (p : PrefStore) (k : String) (v : Bool) :
    prefsGet (prefsSet p k v) k = some v := by
  simp [prefsGet, prefsSet]

/-- Helper: the `allowed := true` assignment, unfolded. -/
theorem set_allowed_true_eq (sys : Sys) :
    set_allowed sys true =
      ({ sys with
          geo := { sys.geo with allowed := true }
          prefs := prefsSet sys.prefs sys.geo.ALLOW_GEOLOCATION_PREF true },
       []) := rfl

/-- Helper: the `allowed := false` assignment, unfolded: persist, then stop
watching. -/
theorem set_allowed_false_eq (sys : Sys) :
    set_allowed sys false =
      stopWatching
        { sys with
            geo := { sys.geo with allowed := false }
            prefs := prefsSet sys.prefs sys.geo.ALLOW_GEOLOCATION_PREF false } :=
  rfl

/-- C7: every assignment to `allowed` persists the assigned value in the
preference store under the instance's stable key in the same synchronous
step, records it in the instance, and an assignment of false additionally
leaves the instance not watching. -/
theorem C7_allowed_setter (sys : Sys) (b : Bool) :
    prefsGet (set_allowed sys b).1.prefs sys.geo.ALLOW_GEOLOCATION_PREF = some b ∧
    (set_allowed sys b).1.geo.allowed = b ∧
    (b = false → isWatching (set_allowed sys b).1.geo = false) := by
  cases b with
  | true =>
      rw [set_allowed_true_eq]
      exact ⟨prefsGet_prefsSet _ _ _, rfl, fun h => by cases h⟩
  | false =>
      rw [set_allowed_false_eq]
      refine ⟨?_, ?_, fun _ => (stopWatching_spec _).1⟩
      · rw [(stopWatching_spec _).2.1]
        exact prefsGet_prefsSet _ _ _
      · rw [(stopWatching_spec _).2.2.1]

/-- Witness for C7: revoking permission on the watching system. -/
theorem C7_allowed_setter_witness :
    prefsGet (set_allowed sysWatching false).1.prefs
      sysWatching.geo.ALLOW_GEOLOCATION_PREF = some false ∧
    (set_allowed sysWatching false).1.geo.allowed = false ∧
    isWatching (set_allowed sysWatching false).1.geo = false := by
  obtain ⟨h1, h2, h3⟩ := C7_allowed_setter sysWatching false
  exact ⟨h1, h2, h3 rfl⟩

/-- C8 counterexample: with a provider whose one-shot entry point throws
synchronously, `getCurrentPosition()` (which, unlike `watchPosition()`, has
no try/catch around the provider call) throws out of the gated entry point
instead of rejecting the returned promise. -/
theorem C8_sync_throw_counterexample :
    ((getCurrentPosition sysThrowingOneShot).1).throws = true := rfl

/-- C8 amended: `watchPosition()` never throws synchronously — a throwing
registration is caught and rejects the returned promise — but
`getCurrentPosition()` throws exactly when `allowed` is true and the
provider's one-shot invocation itself throws, the exception escaping to the
caller. -/
theorem C8_amended_throw_behaviour (sys : Sys) :
    ((watchPosition sys).1).throws = false ∧
    ((getCurrentPosition sys).1).throws =
      (sys.geo.allowed && sys.svc.oneShotThrows) ∧
    (sys.geo.allowed = true → sys.geo.watchID = none →
      sys.svc.watchRegisterThrows = true →
      ((watchPosition sys).1).outDeferred =
        some (Deferred.rejectedExn "GeolocationSvc.watchPosition threw")) := by
  refine ⟨?_, ?_, ?_⟩
  · unfold watchPosition
    cases ha : sys.geo.allowed <;> cases hw : isWatching sys.geo <;>
      cases ht : sys.svc.watchRegisterThrows <;>
        simp [CallOutcome.throws]
  · unfold getCurrentPosition
    cases ha : sys.geo.allowed <;> cases ht : sys.svc.oneShotThrows <;>
      simp [CallOutcome.throws]
  · intro ha hw ht
    simp [watchPosition, ha, isWatching, hw, ht, CallOutcome.outDeferred]

/-- Witness for the amended C8: the registration-throwing provider yields a
rejected promise, not a synchronous throw. -/
theorem C8_amended_throw_behaviour_witness :
    ((watchPosition sysRegThrows).1).outDeferred =
      some (Deferred.rejectedExn "GeolocationSvc.watchPosition threw") :=
  (C8_amended_throw_behaviour sysRegThrows).2.2 rfl rfl rfl

/-- Helper: the watch-handle invariant only reads the stored handle and the
provider's registration list. -/
theorem watchInv_congr (s t : Sys) (hw : t.geo.watchID = s.geo.watchID)
    (hr : t.svc.registered = s.svc.registered) (h : watchInv s = true) :
    watchInv t = true := by
  unfold watchInv at *
  rw [hw, hr]
  exact h

/-- Helper: `stopWatching()` preserves the watch-handle invariant — clearing
the handle unregisters the single live watch. -/
theorem watchInv_stopWatching (sys : Sys) (h : watchInv sys = true) :
    watchInv (stopWatching sys).1 = true := by
  unfold watchInv stopWatching at *
  cases hw : sys.geo.watchID with
  | none => rw [hw] at h; simpa [hw] using h
  | some w =>
      rw [hw] at h
      simp only [beq_iff_eq] at h
      simp [hw, h]

/-- Helper: an `allowed` assignment preserves the watch-handle invariant. -/
theorem watchInv_set_allowed (sys : Sys) (b : Bool) (h : watchInv sys = true) :
    watchInv (set_allowed sys b).1 = true := by
  have h1 : watchInv
      { sys with
          geo := { sys.geo with allowed := b }
          prefs := prefsSet sys.prefs sys.geo.ALLOW_GEOLOCATION_PREF b } = true :=
    watchInv_congr sys _ rfl rfl h
  cases b with
  | true => rw [set_allowed_true_eq]; exact h1
  | false => rw [set_allowed_false_eq]; exact watchInv_stopWatching _ h1

/-- Helper: `getCurrentPosition()` leaves the system state untouched in every
branch. -/
theorem getCurrentPosition_outSys (sys : Sys) :
    ((getCurrentPosition sys).1).outSys = sys := by
  unfold getCurrentPosition
  cases ha : sys.geo.allowed <;> cases ht : sys.svc.oneShotThrows <;>
    simp [CallOutcome.outSys]

/-- Helper: `watchPosition()` preserves the watch-handle invariant: it only
registers from the handle-free state, stores exactly the id the provider
returns, and keeps its hands off the handle in every other branch. -/
theorem watchInv_watchPosition (sys : Sys) (h : watchInv sys = true) :
    watchInv ((watchPosition sys).1).outSys = true := by
  unfold watchPosition
  cases ha : sys.geo.allowed with
  | false =>
      simp only [Bool.false_eq_true, if_false]
      exact watchInv_stopWatching sys h
  | true =>
      cases hw : isWatching sys.geo with
      | true => simp [CallOutcome.outSys, h]
      | false =>
          have hnone : sys.geo.watchID = none := by
            unfold isWatching at hw
            cases hx : sys.geo.watchID
            · rfl
            · rw [hx] at hw; simp at hw
          have hreg : sys.svc.registered = [] := by
            unfold watchInv at h
            rw [hnone] at h
            simpa using h
          cases ht : sys.svc.watchRegisterThrows with
          | true => simp [CallOutcome.outSys, h]
          | false => simp [CallOutcome.outSys, watchInv, hreg]

/-- Helper: the provider success callback preserves the watch-handle
invariant (`_setposition` touches neither the handle nor the provider). -/
theorem watchInv_success_callback (sys : Sys) (p : PositionSample)
    (h : watchInv sys = true) :
    watchInv (success_callback sys p).1 = true :=
  watchInv_congr sys _ (setposition_watchID sys.geo p) rfl h

/-- Helper: `unload` preserves the watch-handle invariant. -/
theorem watchInv_unload (sys : Sys) (r : String) (h : watchInv sys = true) :
    watchInv (geolocation_unload sys r).1 = true := by
  unfold geolocation_unload
  have h1 := watchInv_stopWatching sys h
  cases hr : (r == "disable") with
  | true => simp only [hr, if_true]; exact watchInv_set_allowed _ false h1
  | false => simp only [hr, Bool.false_eq_true, if_false]; exact h1

/-- C6: the watch-handle invariant.  From any state where the stored handle
agrees with the provider's registration list (`watchInv`), the handle is
non-null exactly when one watch is registered and never more than one; every
operation and callback of the module preserves the invariant; a
`registerWatch` provider call is only ever issued from the handle-free
state; and a throwing registration leaves the handle null while rejecting
the returned promise. -/
theorem C6_watch_handle_invariant (sys : Sys) (hinv : watchInv sys = true) :
    ((isWatching sys.geo = true ↔ sys.svc.registered.length = 1) ∧
      sys.svc.registered.length ≤ 1) ∧
    (∀ b, watchInv (set_allowed sys b).1 = true) ∧
    watchInv (stopWatching sys).1 = true ∧
    watchInv ((watchPosition sys).1).outSys = true ∧
    watchInv ((getCurrentPosition sys).1).outSys = true ∧
    (∀ p, watchInv (success_callback sys p).1 = true) ∧
    (∀ e, watchInv (fail_callback sys e).1 = true) ∧
    (∀ r, watchInv (geolocation_unload sys r).1 = true) ∧
    (∀ opts, ProviderCall.registerWatch opts ∈ (watchPosition sys).2 →
      sys.geo.watchID = none) ∧
    (sys.geo.allowed = true → sys.geo.watchID = none →
      sys.svc.watchRegisterThrows = true →
      (watchPosition sys).1 =
        CallOutcome.returned sys []
          (Deferred.rejectedExn "GeolocationSvc.watchPosition threw") ∧
      (watchPosition sys).2 = [ProviderCall.registerWatch sys.geo.options]) := by
  refine ⟨?_, fun b => watchInv_set_allowed sys b hinv,
          watchInv_stopWatching sys hinv,
          watchInv_watchPosition sys hinv,
          by rw [getCurrentPosition_outSys]; exact hinv,
          fun p => watchInv_success_callback sys p hinv,
          fun e => hinv,
          fun r => watchInv_unload sys r hinv,
          ?_, ?_⟩
  · unfold watchInv at hinv
    cases hw : sys.geo.watchID with
    | none =>
        rw [hw] at hinv
        simp only [beq_iff_eq] at hinv
        simp [isWatching, hw, hinv]
    | some w =>
        rw [hw] at hinv
        simp only [beq_iff_eq] at hinv
        simp [isWatching, hw, hinv]
  · intro opts hmem
    cases hw : sys.geo.watchID with
    | none => rfl
    | some w =>
        exfalso
        have hwatch : isWatching sys.geo = true := by simp [isWatching, hw]
        cases ha : sys.geo.allowed with
        | true =>
            rw [show (watchPosition sys).2 = [] by
              simp [watchPosition, ha, hwatch]] at hmem
            simp at hmem
        | false =>
            rw [show (watchPosition sys).2 = [ProviderCall.clearWatch w] by
              simp [watchPosition, ha, stopWatching, hw]] at hmem
            simp at hmem
  · intro ha hw ht
    constructor <;> simp [watchPosition, ha, isWatching, hw, ht]

/-- Witness for C6 at the watching system with handle 0 registered. -/
theorem C6_watch_handle_invariant_witness :
    watchInv (stopWatching sysWatching).1 = true :=
  (C6_watch_handle_invariant sysWatching (by decide)).2.2.1

end Geolocation
